import Mathlib

/-!
Verification of the Splynx→UISP payment-bridge backend.

The development shallowly embeds the webhook route handler
(`POST /webhook/payment`) and the paginated payments listing
(`GET /api/payments`) of the repository.  JavaScript values arriving in a
request body are modelled by the `Json` type below; JavaScript truthiness,
property access, property assignment, `Object.keys(...).length` and
template-literal stringification are modelled by explicit functions whose
doc comments name the construct they embed.  The database helpers
(`dbHelpers.*`) live in `src/utils/database.js`, which is not part of the
sources at hand; they are modelled from the specification's description of
the persistence gateway, and each such definition is marked as such.
-/

/-- A JavaScript/JSON value as it appears in a parsed request body.
`num` carries an integer: the payloads the claims quantify over use
integer amounts and ids.  An absent property (`undefined`) is modelled by
`Option.none` at the access sites, not by a `Json` constructor. -/
inductive Json where
  | null : Json
  | bool : Bool → Json
  | num : Int → Json
  | str : String → Json
  | obj : List (String × Json) → Json
  | arr : List Json → Json

namespace Json

/-- JavaScript truthiness of a value: `null`, `false`, `0` and `""` are
falsy; every object and array is truthy. -/
def truthy : Json → Bool
  | .null => false
  | .bool b => b
  | .num n => n != 0
  | .str s => s != ""
  | .obj _ => true
  | .arr _ => true

/-- Property read `j.k`: `some` value for a present own property of an
object, `none` (JavaScript `undefined`) otherwise. -/
def getField : Json → String → Option Json
  | .obj fs, k => fs.lookup k
  | _, _ => none

/-- Truthiness of the property access `j.k`; an absent property
(`undefined`) is falsy. -/
def truthyField (j : Json) (k : String) : Bool :=
  match j.getField k with
  | some v => v.truthy
  | none => false

/-- `Object.keys(j).length`: number of own keys; index keys for arrays and
strings, none for the other primitives. -/
def keyCount : Json → Nat
  | .obj fs => fs.length
  | .arr xs => xs.length
  | .str s => s.length
  | _ => 0

/-- Whether the value is an object literal. -/
def isObj : Json → Bool
  | .obj _ => true
  | _ => false

end Json

/-- Assignment `o.k = v` on the field list of an object: replaces the
value of an existing key in place, otherwise appends the new key at the
end (JavaScript property-assignment order). -/
def setPairs (fs : List (String × Json)) (k : String) (v : Json) :
    List (String × Json) :=
  if fs.any (fun p => p.1 == k) then
    fs.map (fun p => if p.1 == k then (k, v) else p)
  else fs ++ [(k, v)]

/-- Property assignment `j.k = v`: updates an object, and is a silent
no-op on primitives (non-strict JavaScript). -/
def Json.setField : Json → String → Json → Json
  | .obj fs, k, v => .obj (setPairs fs k v)
  | j, _, _ => j

mutual

/-- Structural equality test on `Json` values (the equality the database
lookup by transaction id uses on stored ids). -/
def jsonBeq : Json → Json → Bool
  | .null, .null => true
  | .bool a, .bool b => a == b
  | .num a, .num b => a == b
  | .str a, .str b => a == b
  | .obj a, .obj b => fieldsBeq a b
  | .arr a, .arr b => elemsBeq a b
  | _, _ => false

/-- Pointwise equality test on object field lists. -/
def fieldsBeq : List (String × Json) → List (String × Json) → Bool
  | [], [] => true
  | (k, v) :: fs, (k', v') :: fs' => k == k' && jsonBeq v v' && fieldsBeq fs fs'
  | _, _ => false

/-- Pointwise equality test on element lists. -/
def elemsBeq : List Json → List Json → Bool
  | [], [] => true
  | x :: xs, y :: ys => jsonBeq x y && elemsBeq xs ys
  | _, _ => false

end

/-- One decimal digit character, for `0 ≤ d ≤ 9`. -/
def digitOf : Nat → Char
  | 0 => '0' | 1 => '1' | 2 => '2' | 3 => '3' | 4 => '4'
  | 5 => '5' | 6 => '6' | 7 => '7' | 8 => '8' | _ => '9'

/-- Decimal digit list of a natural number, most significant first
(the characters of JavaScript `String(n)` for a nonnegative integer). -/
def natDigits (n : Nat) : List Char :=
  if _h : n < 10 then [digitOf n]
  else natDigits (n / 10) ++ [digitOf (n % 10)]
  termination_by n
  decreasing_by exact Nat.div_lt_self (by omega) (by omega)

/-- Decimal string of a natural number. -/
def natToString (n : Nat) : String := ⟨natDigits n⟩

/-- JavaScript stringification `String(n)` of an integer. -/
def intToString (n : Int) : String :=
  if n < 0 then "-" ++ natToString (-n).toNat else natToString n.toNat

mutual

/-- JavaScript `String(v)` / template-literal stringification of a value:
`"[object Object]"` for plain objects, `Array.prototype.join(",")` for
arrays (with `null` elements rendered empty). -/
def jsToString : Json → String
  | .null => "null"
  | .bool b => cond b "true" "false"
  | .num n => intToString n
  | .str s => s
  | .obj _ => "[object Object]"
  | .arr xs => jsArrJoin xs

/-- Comma-join of array elements as in `Array.prototype.toString`. -/
def jsArrJoin : List Json → String
  | [] => ""
  | [.null] => ""
  | [x] => jsToString x
  | .null :: xs => "," ++ jsArrJoin xs
  | x :: xs => jsToString x ++ "," ++ jsArrJoin xs

end

mutual

/-- `JSON.stringify` of a value (modelled without character escaping in
string literals, which no claim depends on). -/
def stringifyJson : Json → String
  | .null => "null"
  | .bool b => cond b "true" "false"
  | .num n => intToString n
  | .str s => "\"" ++ s ++ "\""
  | .obj fs => "\x7b" ++ stringifyFields fs ++ "\x7d"
  | .arr xs => "[" ++ stringifyElems xs ++ "]"

/-- Comma-separated `"key":value` renderings of an object's fields. -/
def stringifyFields : List (String × Json) → String
  | [] => ""
  | [(k, v)] => "\"" ++ k ++ "\":" ++ stringifyJson v
  | (k, v) :: fs => "\"" ++ k ++ "\":" ++ stringifyJson v ++ "," ++ stringifyFields fs

/-- Comma-separated renderings of an array's elements. -/
def stringifyElems : List Json → String
  | [] => ""
  | [x] => stringifyJson x
  | x :: xs => stringifyJson x ++ "," ++ stringifyElems xs

end

/-- A stored payment row.  `src/routes/webhook.js` builds the inserted
object from the normalized attributes; `status`, `response_payload` and
`error_message` are the columns the persistence gateway manages
(spec §3: status ∈ \x7bpending, success, failed\x7d, response payload set on
success, error message set on failure). -/
structure PaymentRecord where
  transaction_id : Json
  client_id : Json
  amount : Json
  currency_code : Json
  payment_type : Json
  payment_method : Json
  created_at : Json
  status : String
  response_payload : Option String
  error_message : Option String

/-- The persisted state the two modelled routes touch: the payments table
and the append-only webhook log. -/
structure DB where
  payments : List PaymentRecord
  webhookLogs : List Json

/-- Outcomes of the calls the handler awaits during one request:
`now` is `Date.now()` at entry, `nowIso` is `new Date().toISOString()`,
`duration` the elapsed milliseconds reported in the success response;
`insertResult`/`updSuccessErr`/`updFailedErr` are `none` when the
corresponding database write succeeds and `some msg` when it rejects with
error message `msg`; `uisp` is the outcome of `postPaymentToUISP`. -/
structure Env where
  now : Nat
  nowIso : String
  duration : Nat
  insertResult : Option String
  uisp : Except String Json
  updSuccessErr : Option String
  updFailedErr : Option String

/-- An observable side effect of one webhook request, in order. -/
inductive Event where
  | logWebhook : Event
  | lookupPayment : Json → Event
  | insertPayment : PaymentRecord → Event
  | uispPost : Event
  | updateStatus : Json → String → Option String → Option String → Event
  | respond : Nat → Event

/-- Whether an event is the outbound UISP post. -/
def isUispPostEv : Event → Bool
  | .uispPost => true
  | _ => false

/-- Whether an event is a successful payment-record insert. -/
def isInsertEv : Event → Bool
  | .insertPayment _ => true
  | _ => false

/-- An HTTP response: status code and JSON body. -/
structure HttpResponse where
  status : Nat
  body : Json

/-- The outcome of one request: response sent, resulting state, and the
ordered side effects. -/
structure WebhookResult where
  resp : HttpResponse
  db : DB
  trace : List Event

/-- The 200 body sent for an empty/ping payload. -/
def pingResponse : HttpResponse :=
  ⟨200, .obj [("success", .bool true),
    ("message", .str "Webhook endpoint is active and ready to receive payments")]⟩

/-- The 200 body sent for a minimal payload missing required fields
(fewer than 3 keys). -/
def probeResponse : HttpResponse :=
  ⟨200, .obj [("success", .bool true),
    ("message", .str "Webhook endpoint is active. Required fields for actual payments: client_id, amount")]⟩

/-- The 400 body naming the missing required fields. -/
def missingFieldsResponse (missing : List String) : HttpResponse :=
  ⟨400, .obj [("error", .str "Missing required fields"),
    ("missingFields", .arr (missing.map .str))]⟩

/-- The 200 body sent when the transaction id already has a record. -/
def duplicateResponse (tid : Json) (st : String) : HttpResponse :=
  ⟨200, .obj [("message", .str "Payment already processed"),
    ("transactionId", tid), ("status", .str st)]⟩

/-- The 200 body sent after a successful UISP post; `uispPaymentId` is
dropped when `uispResponse?.id` is `undefined`, as `res.json` drops
`undefined` values. -/
def successResponse (tid : Json) (uispResp : Json) (duration : Nat) : HttpResponse :=
  ⟨200, .obj ([("message", .str "Payment successfully posted to UISP"), ("transactionId", tid)]
    ++ (match uispResp.getField "id" with
        | some v => [("uispPaymentId", v)]
        | none => [])
    ++ [("duration", .str (natToString duration ++ "ms"))])⟩

/-- The 500 body sent when the UISP post (or the success-status write
inside the same `try`) throws. -/
def uispFailResponse (tid : Json) (msg : String) : HttpResponse :=
  ⟨500, .obj [("error", .str "Failed to post payment to UISP"),
    ("transactionId", tid), ("message", .str msg)]⟩

/-- The 500 body produced by the handler's outer `catch`. -/
def internalErrorResponse (msg : String) : HttpResponse :=
  ⟨500, .obj [("error", .str "Internal server error"), ("message", .str msg)]⟩

/-- Payload extraction (webhook.js lines 27–38): take `data.attributes`
when `req.body.data && req.body.data.attributes` is truthy, else the
`payment` property when truthy, else the body itself. -/
def extractPaymentData (body : Json) : Json :=
  if body.truthyField "data" &&
      ((body.getField "data").getD .null).truthyField "attributes" then
    (((body.getField "data").getD .null).getField "attributes").getD .null
  else if body.truthyField "payment" then
    (body.getField "payment").getD .null
  else body

/-- Whether the body bears the `{data: {attributes: …}}` shape the
handler recognizes. -/
def matchesDataAttributes (body : Json) : Bool :=
  body.truthyField "data" &&
    ((body.getField "data").getD .null).truthyField "attributes"

/-- Whether the body bears the `{payment: …}` envelope shape. -/
def matchesPaymentEnvelope (body : Json) : Bool :=
  body.truthyField "payment"

/-- The test/ping check (webhook.js line 41):
`!paymentData || Object.keys(paymentData).length === 0`. -/
def isPingLike (pd : Json) : Bool :=
  !pd.truthy || pd.keyCount == 0

/-- Field aliasing (webhook.js lines 50–52): copy `customer_id` into
`client_id` when the former is truthy and the latter is not. -/
def aliasCustomerId (pd : Json) : Json :=
  if pd.truthyField "customer_id" && !pd.truthyField "client_id" then
    pd.setField "client_id" ((pd.getField "customer_id").getD .null)
  else pd

/-- The mandatory payment fields (webhook.js line 55). -/
def requiredFields : List String := ["client_id", "amount"]

/-- `requiredFields.filter(field => !paymentData[field])`: the required
fields whose value is absent or falsy. -/
def missingFieldsOf (pd : Json) : List String :=
  requiredFields.filter (fun f => !pd.truthyField f)

/-- The synthesized transaction id
`SPLYNX-${Date.now()}-${paymentData.client_id}` (webhook.js line 81). -/
def synthTid (now : Nat) (cid : Json) : String :=
  "SPLYNX-" ++ natToString now ++ "-" ++ jsToString cid

/-- Transaction-id synthesis (webhook.js lines 80–82): when
`paymentData.transaction_id` is falsy, assign the synthesized id. -/
def ensureTransactionId (now : Nat) (pd : Json) : Json :=
  if !pd.truthyField "transaction_id" then
    pd.setField "transaction_id"
      (.str (synthTid now ((pd.getField "client_id").getD .null)))
  else pd

/-- The normalized attributes the handler validates: extraction followed
by the `customer_id` aliasing shim. -/
def webhookAttrs (body : Json) : Json :=
  aliasCustomerId (extractPaymentData body)

/-- The transaction id under which the request is processed, after
synthesis if needed. -/
def webhookTid (now : Nat) (body : Json) : Json :=
  ((ensureTransactionId now (webhookAttrs body)).getField "transaction_id").getD .null

/-- Modelled from the spec: `dbHelpers.getPaymentByTransactionId` of
`src/utils/database.js` (absent from the sources) — §4.3 "get payment by
transaction id", the lookup the idempotency check uses.  Returns the
first stored record whose transaction id equals the given one. -/
def getPaymentByTransactionId (ps : List PaymentRecord) (tid : Json) : Option PaymentRecord :=
  ps.find? (fun r => jsonBeq r.transaction_id tid)

/-- Modelled from the spec: `dbHelpers.updatePaymentStatus` of
`src/utils/database.js` (absent from the sources) — §4.3 "update payment
status (transaction id + new status + optional response/error payload)". -/
def updatePaymentStatus (ps : List PaymentRecord) (tid : Json) (st : String)
    (rp em : Option String) : List PaymentRecord :=
  ps.map (fun r =>
    if jsonBeq r.transaction_id tid then
      { r with status := st, response_payload := rp, error_message := em }
    else r)

/-- The record the handler inserts (webhook.js lines 101–109): `x || y`
defaulting is truthiness choice; absent properties are stored as null.
The `status := "pending"` column is modelled from the spec (§4.2 step 7:
`dbHelpers.insertPayment` stores the new record with status pending). -/
def mkPaymentRecord (env : Env) (pd : Json) : PaymentRecord where
  transaction_id := (pd.getField "transaction_id").getD .null
  client_id := (pd.getField "client_id").getD .null
  amount := (pd.getField "amount").getD .null
  currency_code :=
    if pd.truthyField "currency_code" then (pd.getField "currency_code").getD .null
    else .str "KES"
  payment_type := (pd.getField "payment_type").getD .null
  payment_method :=
    if pd.truthyField "payment_method" then (pd.getField "payment_method").getD .null
    else (pd.getField "payment_type").getD .null
  created_at :=
    if pd.truthyField "created_at" then (pd.getField "created_at").getD .null
    else .str env.nowIso
  status := "pending"
  response_payload := none
  error_message := none

/-- The `catch (uispError)` block (webhook.js lines 154–174): write the
failed status with the error message, then send the 500; if that write
itself rejects, control reaches the outer catch and a generic 500 is sent
with the state unchanged by the failed write. -/
def uispFailurePath (env : Env) (db : DB) (tid : Json) (msg : String)
    (pre : List Event) : WebhookResult :=
  match env.updFailedErr with
  | none =>
    let db' : DB := { db with payments := updatePaymentStatus db.payments tid "failed" none (some msg) }
    let r := uispFailResponse tid msg
    ⟨r, db', pre ++ [.updateStatus tid "failed" none (some msg), .respond r.status]⟩
  | some m2 =>
    let r := internalErrorResponse m2
    ⟨r, db, pre ++ [.respond r.status]⟩

/-- The `POST /webhook/payment` handler of `src/routes/webhook.js`
(lines 12–187), after signature validation: log the webhook, extract and
normalize the payload, short-circuit pings and minimal probes, validate
required fields, synthesize the transaction id, perform the idempotency
lookup, insert the pending record, post to UISP and finalize the status.
Database writes whose promise rejects raise to the enclosing catch, per
the `Env` outcome fields.  The fire-and-forget `syncSingleClient` call is
detached from the request and not part of the result. -/
def handleWebhook (env : Env) (db : DB) (body : Json) : WebhookResult :=
  let db1 : DB := { db with webhookLogs := db.webhookLogs ++ [body] }
  if isPingLike (extractPaymentData body) then
    ⟨pingResponse, db1, [.logWebhook, .respond 200]⟩
  else if !(missingFieldsOf (webhookAttrs body)).isEmpty then
    if (webhookAttrs body).keyCount < 3 then
      ⟨probeResponse, db1, [.logWebhook, .respond 200]⟩
    else
      ⟨missingFieldsResponse (missingFieldsOf (webhookAttrs body)), db1,
        [.logWebhook, .respond 400]⟩
  else
    let tid := webhookTid env.now body
    match getPaymentByTransactionId db1.payments tid with
    | some existing =>
      ⟨duplicateResponse tid existing.status, db1,
        [.logWebhook, .lookupPayment tid, .respond 200]⟩
    | none =>
      match env.insertResult with
      | some m =>
        ⟨internalErrorResponse m, db1,
          [.logWebhook, .lookupPayment tid, .respond 500]⟩
      | none =>
        let rec0 := mkPaymentRecord env (ensureTransactionId env.now (webhookAttrs body))
        let db2 : DB := { db1 with payments := db1.payments ++ [rec0] }
        match env.uisp with
        | .ok uresp =>
          match env.updSuccessErr with
          | none =>
            let ps3 := updatePaymentStatus db2.payments tid "success" (some (stringifyJson uresp)) none
            let db3 : DB := { db2 with payments := ps3 }
            let r := successResponse tid uresp env.duration
            ⟨r, db3,
              [.logWebhook, .lookupPayment tid, .insertPayment rec0, .uispPost,
               .updateStatus tid "success" (some (stringifyJson uresp)) none, .respond 200]⟩
          | some m =>
            uispFailurePath env db2 tid m
              [.logWebhook, .lookupPayment tid, .insertPayment rec0, .uispPost]
        | .error m =>
          uispFailurePath env db2 tid m
            [.logWebhook, .lookupPayment tid, .insertPayment rec0, .uispPost]

/-- Modelled from the spec: `dbHelpers.getAllPayments` of
`src/utils/database.js` (absent from the sources) — §4.3 "list payments
with offset/limit": the `limit` rows starting at `offset`. -/
def getAllPayments (ps : List PaymentRecord) (limit offset : Int) : List PaymentRecord :=
  (ps.drop offset.toNat).take limit.toNat

/-- The JSON rendering of a stored payment row in API responses. -/
def paymentRecordToJson (r : PaymentRecord) : Json :=
  .obj [("transaction_id", r.transaction_id), ("client_id", r.client_id),
    ("amount", r.amount), ("currency_code", r.currency_code),
    ("payment_type", r.payment_type), ("payment_method", r.payment_method),
    ("created_at", r.created_at), ("status", .str r.status),
    ("response_payload", match r.response_payload with | some s => .str s | none => .null),
    ("error_message", match r.error_message with | some s => .str s | none => .null)]

/-- `parseInt(q) || d`: the caller passes the `parseInt` outcome (`none`
for `NaN`); `0` and `NaN` fall back to the default. -/
def jsParseIntOr (v : Option Int) (d : Int) : Int :=
  match v with
  | some n => if n == 0 then d else n
  | none => d

/-- The `GET /api/payments` handler of `src/routes/api.js` (lines 16–41):
parse `limit` (default 50) and `offset` (default 0), fetch the page, and
answer 200 with the rows and a pagination block, or 500 with the error
envelope when the database call rejects (`dbErr = some msg`). -/
def handleGetPayments (db : DB) (dbErr : Option String)
    (limitParam offsetParam : Option Int) : HttpResponse :=
  let limit := jsParseIntOr limitParam 50
  let offset := jsParseIntOr offsetParam 0
  match dbErr with
  | some m =>
    ⟨500, .obj [("success", .bool false), ("error", .str "Failed to fetch payments"),
      ("message", .str m)]⟩
  | none =>
    let rows := getAllPayments db.payments limit offset
    ⟨200, .obj [("success", .bool true),
      ("data", .arr (rows.map paymentRecordToJson)),
      ("pagination", .obj [("limit", .num limit), ("offset", .num offset),
        ("count", .num rows.length)])]⟩

/-- The number of rows in the `data` array of a response, when present. -/
def responseDataLength (r : HttpResponse) : Option Nat :=
  match r.body.getField "data" with
  | some (.arr xs) => some xs.length
  | _ => none

/-- Status and error message of a stored record, for stating what a
lookup found. -/
def statusAndError (r : PaymentRecord) : String × Option String :=
  (r.status, r.error_message)

/-- Status and response payload of a stored record. -/
def statusAndPayload (r : PaymentRecord) : String × Option String :=
  (r.status, r.response_payload)

/-- An environment in which every external call succeeds and the UISP
response carries id 42. -/
def envOk : Env := ⟨1000, "2026-01-01T00:00:00.000Z", 5, none, .ok (.obj [("id", .num 42)]), none, none⟩

/-- An environment in which the UISP post rejects with an empty error
message. -/
def envUispEmptyErr : Env := ⟨1000, "2026-01-01T00:00:00.000Z", 5, none, .error "", none, none⟩

/-- An environment in which the UISP post succeeds but the success-status
write rejects. -/
def envUpdFail : Env := ⟨1000, "2026-01-01T00:00:00.000Z", 5, none, .ok (.obj []), some "db down", none⟩

/-- A bare, fully valid payload with an explicit transaction id. -/
def bodyBare : Json :=
  .obj [("transaction_id", .str "T1"), ("client_id", .num 1), ("amount", .num 100)]

/-- The empty database. -/
def dbEmpty : DB := ⟨[], []⟩

/-- The record `bodyBare` inserts when processed against `envOk`. -/
def recT1 : PaymentRecord := mkPaymentRecord envOk (ensureTransactionId 1000 (webhookAttrs bodyBare))

/-- A database already holding a record for transaction id "T1". -/
def dbWithT1 : DB := ⟨[recT1], []⟩

/-- The `count` entry of a response's `pagination` block, when present. -/
def paginationCount (r : HttpResponse) : Option Json :=
  match r.body.getField "pagination" with
  | some p => p.getField "count"
  | none => none

/-- A payload whose required fields are present but falsy. -/
def bodyFalsy : Json :=
  .obj [("client_id", .num 0), ("amount", .str ""), ("foo", .num 1)]

mutual

/-- `jsonBeq` is reflexive. -/
theorem jsonBeq_refl : ∀ j : Json, jsonBeq j j = true
  | .null => rfl
  | .bool b => by simp [jsonBeq]
  | .num n => by simp [jsonBeq]
  | .str s => by simp [jsonBeq]
  | .obj fs => by simp [jsonBeq, fieldsBeq_refl fs]
  | .arr xs => by simp [jsonBeq, elemsBeq_refl xs]

/-- `fieldsBeq` is reflexive. -/
theorem fieldsBeq_refl : ∀ fs : List (String × Json), fieldsBeq fs fs = true
  | [] => rfl
  | (k, v) :: fs => by simp [fieldsBeq, jsonBeq_refl v, fieldsBeq_refl fs]

/-- `elemsBeq` is reflexive. -/
theorem elemsBeq_refl : ∀ xs : List Json, elemsBeq xs xs = true
  | [] => rfl
  | x :: xs => by simp [elemsBeq, jsonBeq_refl x, elemsBeq_refl xs]

end

/-- After inserting a record for a fresh transaction id and updating that
id's status, the lookup returns the inserted record with the new status,
response payload and error message. -/
theorem getPayment_update_append (ps : List PaymentRecord) (r : PaymentRecord)
    (tid : Json) (st : String) (rp em : Option String)
    (hnone : getPaymentByTransactionId ps tid = none)
    (hr : jsonBeq r.transaction_id tid = true) :
    getPaymentByTransactionId (updatePaymentStatus (ps ++ [r]) tid st rp em) tid
      = some { r with status := st, response_payload := rp, error_message := em } := by
  induction ps with
  | nil =>
    simp [getPaymentByTransactionId, updatePaymentStatus, hr, List.find?]
  | cons p ps ih =>
    simp only [getPaymentByTransactionId] at hnone ih ⊢
    cases hp : jsonBeq p.transaction_id tid with
    | true =>
      rw [List.find?_cons, hp] at hnone
      cases hnone
    | false =>
      rw [List.find?_cons, hp] at hnone
      simp only [List.cons_append, updatePaymentStatus, List.map_cons] at ih ⊢
      rw [if_neg (by simp [hp])]
      rw [List.find?_cons, hp]
      exact ih hnone

/-- After inserting a record for a fresh transaction id, the lookup
returns exactly the inserted record. -/
theorem getPayment_append (ps : List PaymentRecord) (r : PaymentRecord) (tid : Json)
    (hnone : getPaymentByTransactionId ps tid = none)
    (hr : jsonBeq r.transaction_id tid = true) :
    getPaymentByTransactionId (ps ++ [r]) tid = some r := by
  induction ps with
  | nil => simp [getPaymentByTransactionId, List.find?, hr]
  | cons p ps ih =>
    simp only [getPaymentByTransactionId] at hnone ih ⊢
    cases hp : jsonBeq p.transaction_id tid with
    | true =>
      rw [List.find?_cons, hp] at hnone
      cases hnone
    | false =>
      rw [List.find?_cons, hp] at hnone
      simp only [List.cons_append]
      rw [List.find?_cons, hp]
      exact ih hnone

/-- Replacing the value of a present key by mapping over the field list
makes the lookup of that key return the new value. -/
theorem lookup_map_replace (fs : List (String × Json)) (k : String) (v : Json)
    (h : fs.any (fun p => p.1 == k) = true) :
    List.lookup k (fs.map (fun p => if p.1 == k then (k, v) else p)) = some v := by
  induction fs with
  | nil => simp at h
  | cons p fs ih =>
    by_cases hp : p.1 = k
    · have hpk : (p.1 == k) = true := by simp [hp]
      rw [List.map_cons, if_pos hpk]
      simp [List.lookup]
    · have hpk : (p.1 == k) = false := by simp [hp]
      have hkp : (k == p.1) = false := by simp [Ne.symm hp]
      simp only [List.any_cons, hpk, Bool.false_or] at h
      simp only [List.map_cons, hpk, Bool.false_eq_true, if_false]
      rw [List.lookup, hkp]
      exact ih h

/-- Appending a fresh key at the end of the field list makes the lookup
of that key return the appended value. -/
theorem lookup_append_fresh (fs : List (String × Json)) (k : String) (v : Json)
    (h : fs.any (fun p => p.1 == k) = false) :
    List.lookup k (fs ++ [(k, v)]) = some v := by
  induction fs with
  | nil => simp [List.lookup]
  | cons p fs ih =>
    simp only [List.any_cons, Bool.or_eq_false_iff] at h
    have hkp : (k == p.1) = false := by
      cases hq : (k == p.1) with
      | true =>
        exfalso
        have : p.1 = k := by
          have := (beq_iff_eq (a := k) (b := p.1)).mp hq
          exact this.symm
        simp [this] at h
      | false => rfl
    simp only [List.cons_append]
    rw [List.lookup, hkp]
    exact ih h.2

/-- Reading back the key just assigned on a field list returns the
assigned value. -/
theorem lookup_setPairs (fs : List (String × Json)) (k : String) (v : Json) :
    List.lookup k (setPairs fs k v) = some v := by
  unfold setPairs
  split
  case isTrue h => exact lookup_map_replace fs k v h
  case isFalse h => exact lookup_append_fresh fs k v (Bool.eq_false_iff.mpr h)

/-- Reading back the property just assigned on an object returns the
assigned value. -/
theorem getField_setField (fs : List (String × Json)) (k : String) (v : Json) :
    (Json.setField (.obj fs) k v).getField k = some v := by
  simp only [Json.setField, Json.getField, lookup_setPairs]

/-- The character value of a decimal digit round-trips. -/
theorem digitOf_toNat : ∀ d : Nat, d < 10 → (digitOf d).toNat - 48 = d := by decide

/-- A decimal digit character is never the dash separator. -/
theorem digitOf_ne_dash (d : Nat) : digitOf d ≠ '-' := by
  unfold digitOf
  split <;> decide

/-- Folding the base-10 accumulator over the decimal digits of `n`
recovers `n` (shifted by the accumulator). -/
theorem parse_natDigits (n : Nat) :
    ∀ a : Nat, (natDigits n).foldl (fun x c => x * 10 + (c.toNat - 48)) a
      = a * 10 ^ (natDigits n).length + n := by
  induction n using Nat.strong_induction_on with
  | _ n ih =>
    intro a
    rw [natDigits]
    split
    case isTrue h =>
      simp [List.foldl, digitOf_toNat n h]
    case isFalse h =>
      have hlt : n / 10 < n := Nat.div_lt_self (by omega) (by omega)
      rw [List.foldl_append, ih (n / 10) hlt a]
      have hm : (n % 10) < 10 := Nat.mod_lt _ (by omega)
      simp only [List.foldl, List.length_append, List.length_cons, List.length_nil]
      rw [digitOf_toNat _ hm]
      have hdm := Nat.div_add_mod n 10
      have hpow : 10 ^ ((natDigits (n / 10)).length + (0 + 1))
          = 10 ^ (natDigits (n / 10)).length * 10 := by
        rw [Nat.zero_add, Nat.pow_succ]
      rw [hpow]
      ring_nf
      omega

/-- Distinct naturals have distinct decimal digit strings. -/
theorem natDigits_inj (m n : Nat) (h : natDigits m = natDigits n) : m = n := by
  have hm := parse_natDigits m 0
  have hn := parse_natDigits n 0
  rw [h] at hm
  simp only [Nat.zero_mul, Nat.zero_add] at hm hn
  omega

/-- No decimal digit string contains the dash separator. -/
theorem natDigits_no_dash (n : Nat) : ∀ c ∈ natDigits n, c ≠ '-' := by
  induction n using Nat.strong_induction_on with
  | _ n ih =>
    rw [natDigits]
    split
    case isTrue h =>
      intro c hc
      simp only [List.mem_singleton] at hc
      subst hc
      exact digitOf_ne_dash _
    case isFalse h =>
      intro c hc
      rw [List.mem_append] at hc
      cases hc with
      | inl hmem => exact ih (n / 10) (Nat.div_lt_self (by omega) (by omega)) c hmem
      | inr hmem =>
        simp only [List.mem_singleton] at hmem
        subst hmem
        exact digitOf_ne_dash _

/-- A dash-separated concatenation with dash-free left parts determines
both parts. -/
theorem append_dash_split (l₁ : List Char) (r₁ r₂ : List Char)
    (h₁ : ∀ c ∈ l₁, c ≠ '-') :
    ∀ l₂ : List Char, (∀ c ∈ l₂, c ≠ '-') →
      l₁ ++ '-' :: r₁ = l₂ ++ '-' :: r₂ → l₁ = l₂ ∧ r₁ = r₂ := by
  induction l₁ with
  | nil =>
    intro l₂ h₂ h
    cases l₂ with
    | nil => simpa using h
    | cons c t =>
      simp only [List.nil_append, List.cons_append, List.cons.injEq] at h
      exact absurd h.1.symm (h₂ c (by simp))
  | cons c t ih =>
    intro l₂ h₂ h
    cases l₂ with
    | nil =>
      simp only [List.cons_append, List.nil_append, List.cons.injEq] at h
      exact absurd h.1 (h₁ c (by simp))
    | cons c' t' =>
      simp only [List.cons_append, List.cons.injEq] at h
      obtain ⟨hc, ht⟩ := h
      obtain ⟨he, hr⟩ :=
        ih (fun x hx => h₁ x (by simp [hx])) t' (fun x hx => h₂ x (by simp [hx])) ht
      exact ⟨by rw [hc, he], hr⟩

/-- The synthesized transaction id determines the timestamp and the
stringified client id. -/
theorem synthTid_inj (t₁ t₂ : Nat) (c₁ c₂ : Json)
    (h : synthTid t₁ c₁ = synthTid t₂ c₂) :
    t₁ = t₂ ∧ jsToString c₁ = jsToString c₂ := by
  have hd := congrArg String.data h
  simp only [synthTid, natToString, String.data_append] at hd
  simp only [List.append_assoc] at hd
  have hd' := List.append_cancel_left hd
  simp only [List.singleton_append] at hd'
  obtain ⟨hdig, hrest⟩ :=
    append_dash_split (natDigits t₁) _ _ (natDigits_no_dash t₁)
      (natDigits t₂) (natDigits_no_dash t₂) hd'
  exact ⟨natDigits_inj _ _ hdig, String.ext hrest⟩

/-- C6 (amended): for every webhook body whose extracted attributes value
is empty or falsy, the handler returns 200, writes no payment record, and
performs no side effect other than the unconditional webhook log entry
written at entry. -/
theorem webhook_ping_only_logs (env : Env) (db : DB) (body : Json)
    (h : isPingLike (extractPaymentData body) = true) :
    handleWebhook env db body
      = ⟨pingResponse, ⟨db.payments, db.webhookLogs ++ [body]⟩,
         [.logWebhook, .respond 200]⟩
    ∧ pingResponse.status = 200 := by
  constructor
  · simp [handleWebhook, h]
  · rfl

/-- Witness for C6: the empty body `{}` is answered 200 with only the
webhook log entry written. -/
theorem webhook_ping_only_logs_witness :
    handleWebhook envOk dbEmpty (.obj [])
      = ⟨pingResponse, ⟨[], [.obj []]⟩, [.logWebhook, .respond 200]⟩
    ∧ pingResponse.status = 200 :=
  webhook_ping_only_logs envOk dbEmpty (.obj []) rfl

/-- Counterexample for C6 as stated: handling the empty body `{}` does
perform a side effect — the unconditional webhook log write — so the
state after the request differs from the state before it. -/
theorem webhook_ping_writes_log_counterexample :
    (handleWebhook envOk dbEmpty (.obj [])).db.webhookLogs = [.obj []]
    ∧ dbEmpty.webhookLogs = []
    ∧ (handleWebhook envOk dbEmpty (.obj [])).resp.status = 200
    ∧ (handleWebhook envOk dbEmpty (.obj [])).db.payments = [] :=
  ⟨rfl, rfl, rfl, rfl⟩

/-- C4: the handler extracts the same normalized flat attributes from the
three recognized body shapes `{data: {attributes: A}}`, `{payment: A}`
and the bare object `A` (for flat attribute objects `A`, i.e. truthy
values not themselves carrying a truthy `data.attributes` or `payment`
property), and any body matching neither of the first two shapes is
treated as the bare case. -/
theorem payload_shapes_equivalent (A : Json) (hA : A.truthy = true)
    (hD : matchesDataAttributes A = false) (hP : matchesPaymentEnvelope A = false) :
    extractPaymentData (.obj [("data", .obj [("attributes", A)])]) = A
    ∧ extractPaymentData (.obj [("payment", A)]) = A
    ∧ extractPaymentData A = A
    ∧ ∀ body : Json, matchesDataAttributes body = false →
        matchesPaymentEnvelope body = false → extractPaymentData body = body := by
  have hbare : ∀ body : Json, matchesDataAttributes body = false →
      matchesPaymentEnvelope body = false → extractPaymentData body = body := by
    intro body hb1 hb2
    unfold matchesDataAttributes at hb1
    unfold matchesPaymentEnvelope at hb2
    unfold extractPaymentData
    rw [hb1, hb2]
    simp
  refine ⟨?_, ?_, hbare A hD hP, hbare⟩
  · unfold extractPaymentData
    rw [if_pos]
    · rfl
    · exact hA
  · unfold extractPaymentData
    rw [if_neg, if_pos]
    · rfl
    · exact hA
    · exact fun hfalse => Bool.false_ne_true hfalse

/-- Witness for C4 at the flat attributes `{client_id: 1, amount: 100}`. -/
theorem payload_shapes_equivalent_witness :
    extractPaymentData (.obj [("data", .obj [("attributes",
        .obj [("client_id", .num 1), ("amount", .num 100)])])])
      = .obj [("client_id", .num 1), ("amount", .num 100)]
    ∧ extractPaymentData (.obj [("payment",
        .obj [("client_id", .num 1), ("amount", .num 100)])])
      = .obj [("client_id", .num 1), ("amount", .num 100)] := by
  have h := payload_shapes_equivalent
    (.obj [("client_id", .num 1), ("amount", .num 100)]) rfl rfl rfl
  exact ⟨h.1, h.2.1⟩

/-- C1: for every inbound payment webhook whose (possibly synthesized)
transaction id already has a stored payment record, the handler returns
HTTP 200 reporting the existing record's status, inserts no second
payment record, and does not invoke the external post — so redelivery of
a transaction id never causes a second processing attempt. -/
theorem webhook_idempotent (env : Env) (db : DB) (body : Json) (rec : PaymentRecord)
    (hping : isPingLike (extractPaymentData body) = false)
    (hval : missingFieldsOf (webhookAttrs body) = [])
    (hdup : getPaymentByTransactionId db.payments (webhookTid env.now body) = some rec) :
    (handleWebhook env db body).resp
        = duplicateResponse (webhookTid env.now body) rec.status
    ∧ (handleWebhook env db body).resp.status = 200
    ∧ (handleWebhook env db body).resp.body.getField "status" = some (.str rec.status)
    ∧ (handleWebhook env db body).db.payments = db.payments
    ∧ (handleWebhook env db body).trace.any isUispPostEv = false
    ∧ (handleWebhook env db body).trace.any isInsertEv = false := by
  have hmain : handleWebhook env db body
      = ⟨duplicateResponse (webhookTid env.now body) rec.status,
         ⟨db.payments, db.webhookLogs ++ [body]⟩,
         [.logWebhook, .lookupPayment (webhookTid env.now body), .respond 200]⟩ := by
    simp [handleWebhook, hping, hval, hdup]
  rw [hmain]
  refine ⟨rfl, rfl, ?_, rfl, rfl, rfl⟩
  simp [duplicateResponse, Json.getField, List.lookup]

/-- Witness for C1: redelivering `bodyBare` against a database already
holding its record is answered 200 with the stored status and no new
insert or UISP post. -/
theorem webhook_idempotent_witness :
    (handleWebhook envOk dbWithT1 bodyBare).resp
        = duplicateResponse (webhookTid envOk.now bodyBare) recT1.status
    ∧ (handleWebhook envOk dbWithT1 bodyBare).resp.status = 200
    ∧ (handleWebhook envOk dbWithT1 bodyBare).resp.body.getField "status"
        = some (.str recT1.status)
    ∧ (handleWebhook envOk dbWithT1 bodyBare).db.payments = dbWithT1.payments
    ∧ (handleWebhook envOk dbWithT1 bodyBare).trace.any isUispPostEv = false
    ∧ (handleWebhook envOk dbWithT1 bodyBare).trace.any isInsertEv = false :=
  webhook_idempotent envOk dbWithT1 bodyBare recT1 rfl rfl rfl

/-- C5 (amended): for a webhook payload missing a required field
(`client_id` or `amount`), the handler returns 200 as a test probe with
no record written when the normalized attributes hold fewer than 3 keys,
and otherwise returns 400 naming the missing fields in `missingFields`.
In particular `{client_id: 1}` yields 200; removing a required field from
`{client_id: 1, amount: 100, foo: 1}` leaves 2 keys and therefore also
yields 200 (probe), while payloads with at least 3 keys missing a
required field yield the 400. -/
theorem required_field_validation (env : Env) (db : DB) (body : Json)
    (hping : isPingLike (extractPaymentData body) = false)
    (hmiss : (missingFieldsOf (webhookAttrs body)).isEmpty = false) :
    ((webhookAttrs body).keyCount < 3 →
       (handleWebhook env db body).resp = probeResponse
       ∧ (handleWebhook env db body).db.payments = db.payments)
    ∧ (¬ (webhookAttrs body).keyCount < 3 →
       (handleWebhook env db body).resp.status = 400
       ∧ (handleWebhook env db body).resp.body.getField "missingFields"
           = some (.arr ((missingFieldsOf (webhookAttrs body)).map .str))
       ∧ (handleWebhook env db body).db.payments = db.payments)
    ∧ (handleWebhook env db (.obj [("client_id", .num 1)])).resp = probeResponse
    ∧ (handleWebhook env db (.obj [("amount", .num 100), ("foo", .num 1)])).resp = probeResponse
    ∧ (handleWebhook env db (.obj [("client_id", .num 1), ("foo", .num 1)])).resp = probeResponse := by
  refine ⟨?_, ?_, rfl, rfl, rfl⟩
  · intro h3
    have hmain : handleWebhook env db body
        = ⟨probeResponse, ⟨db.payments, db.webhookLogs ++ [body]⟩,
           [.logWebhook, .respond 200]⟩ := by
      simp [handleWebhook, hping, hmiss, h3]
    rw [hmain]
    exact ⟨rfl, rfl⟩
  · intro h3
    have hmain : handleWebhook env db body
        = ⟨missingFieldsResponse (missingFieldsOf (webhookAttrs body)),
           ⟨db.payments, db.webhookLogs ++ [body]⟩,
           [.logWebhook, .respond 400]⟩ := by
      simp [handleWebhook, hping, hmiss, h3]
    rw [hmain]
    refine ⟨rfl, ?_, rfl⟩
    simp [missingFieldsResponse, Json.getField, List.lookup]

/-- Witness for C5: `{amount: 100, foo: 1, bar: 2}` (3 keys, missing
`client_id`) is answered 400 with the missing fields listed and nothing
written. -/
theorem required_field_validation_witness :
    (handleWebhook envOk dbEmpty
        (.obj [("amount", .num 100), ("foo", .num 1), ("bar", .num 2)])).resp.status = 400
    ∧ (handleWebhook envOk dbEmpty
        (.obj [("amount", .num 100), ("foo", .num 1), ("bar", .num 2)])).resp.body.getField "missingFields"
        = some (.arr ((missingFieldsOf (webhookAttrs
            (.obj [("amount", .num 100), ("foo", .num 1), ("bar", .num 2)]))).map .str))
    ∧ (handleWebhook envOk dbEmpty
        (.obj [("amount", .num 100), ("foo", .num 1), ("bar", .num 2)])).db.payments
        = dbEmpty.payments :=
  (required_field_validation envOk dbEmpty
      (.obj [("amount", .num 100), ("foo", .num 1), ("bar", .num 2)]) rfl rfl).2.1
    (by decide)

/-- Counterexample for C5 as stated: `{client_id: 1, amount: 100, foo: 1}`
with `client_id` removed is `{amount: 100, foo: 1}`, which the handler
answers with the 200 probe response, not the claimed 400. -/
theorem required_field_validation_counterexample :
    (handleWebhook envOk dbEmpty (.obj [("amount", .num 100), ("foo", .num 1)])).resp
        = probeResponse
    ∧ (handleWebhook envOk dbEmpty (.obj [("amount", .num 100), ("foo", .num 1)])).resp.status
        = 200
    ∧ (200 : Nat) ≠ 400 :=
  ⟨rfl, rfl, by decide⟩

/-- C3: for every non-duplicate payment webhook that passes field
validation, the pending payment record is inserted (trace position 2)
before the external UISP post (trace position 3); and when the insert
rejects, the request is answered 500 and the external post is never
invoked, leaving the payments table unchanged. -/
theorem pending_insert_before_post (env : Env) (db : DB) (body : Json)
    (hping : isPingLike (extractPaymentData body) = false)
    (hval : missingFieldsOf (webhookAttrs body) = [])
    (hdup : getPaymentByTransactionId db.payments (webhookTid env.now body) = none) :
    (env.insertResult = none →
       (handleWebhook env db body).trace[2]?
           = some (.insertPayment (mkPaymentRecord env (ensureTransactionId env.now (webhookAttrs body))))
       ∧ (mkPaymentRecord env (ensureTransactionId env.now (webhookAttrs body))).status = "pending"
       ∧ (handleWebhook env db body).trace[3]? = some .uispPost)
    ∧ (∀ m, env.insertResult = some m →
       (handleWebhook env db body).resp = internalErrorResponse m
       ∧ (handleWebhook env db body).resp.status = 500
       ∧ (handleWebhook env db body).trace.any isUispPostEv = false
       ∧ (handleWebhook env db body).db.payments = db.payments) := by
  constructor
  · intro hins
    have hpend : (mkPaymentRecord env (ensureTransactionId env.now (webhookAttrs body))).status
        = "pending" := rfl
    cases henv : env.uisp with
    | ok uresp =>
      cases hupd : env.updSuccessErr with
      | none =>
        simp [handleWebhook, hping, hval, hdup, hins, henv, hupd, hpend]
      | some m =>
        simp [handleWebhook, uispFailurePath, hping, hval, hdup, hins, henv, hupd, hpend]
        cases hupdf : env.updFailedErr <;> simp [hupdf]
    | error m =>
      simp [handleWebhook, uispFailurePath, hping, hval, hdup, hins, henv, hpend]
      cases hupdf : env.updFailedErr <;> simp [hupdf]
  · intro m hins
    have hmain : handleWebhook env db body
        = ⟨internalErrorResponse m, ⟨db.payments, db.webhookLogs ++ [body]⟩,
           [.logWebhook, .lookupPayment (webhookTid env.now body), .respond 500]⟩ := by
      simp [handleWebhook, hping, hval, hdup, hins]
    rw [hmain]
    exact ⟨rfl, rfl, rfl, rfl⟩

/-- Witness for C3 at `bodyBare` against the empty database: the pending
insert is trace step 2 and the UISP post trace step 3. -/
theorem pending_insert_before_post_witness :
    (handleWebhook envOk dbEmpty bodyBare).trace[2]?
        = some (.insertPayment (mkPaymentRecord envOk (ensureTransactionId envOk.now (webhookAttrs bodyBare))))
    ∧ (mkPaymentRecord envOk (ensureTransactionId envOk.now (webhookAttrs bodyBare))).status = "pending"
    ∧ (handleWebhook envOk dbEmpty bodyBare).trace[3]? = some .uispPost :=
  (pending_insert_before_post envOk dbEmpty bodyBare rfl rfl rfl).1 rfl

/-- The UISP-failure response always carries status 500. -/
theorem uispFailResponse_status (tid : Json) (m : String) :
    (uispFailResponse tid m).status = 500 := rfl

/-- C2 (amended): once the handler has sent its response for a
non-duplicate, non-probe payment, and the status-update writes succeed:
if the external post succeeded the stored record's status is "success"
with the external response stored; if the external post failed the stored
status is "failed" with the external error's message recorded (which the
code does not force to be non-empty) before the 500 response is sent; in
neither case is the record left "pending". -/
theorem webhook_status_finalized (env : Env) (db : DB) (body : Json)
    (hping : isPingLike (extractPaymentData body) = false)
    (hval : missingFieldsOf (webhookAttrs body) = [])
    (hdup : getPaymentByTransactionId db.payments (webhookTid env.now body) = none)
    (hins : env.insertResult = none)
    (hupdS : env.updSuccessErr = none)
    (hupdF : env.updFailedErr = none) :
    (∀ uresp, env.uisp = .ok uresp →
       (getPaymentByTransactionId (handleWebhook env db body).db.payments
           (webhookTid env.now body)).map statusAndPayload
         = some ("success", some (stringifyJson uresp))
       ∧ (handleWebhook env db body).resp.status = 200)
    ∧ (∀ m, env.uisp = .error m →
       (getPaymentByTransactionId (handleWebhook env db body).db.payments
           (webhookTid env.now body)).map statusAndError
         = some ("failed", some m)
       ∧ (handleWebhook env db body).resp.status = 500
       ∧ (handleWebhook env db body).trace[4]?
           = some (.updateStatus (webhookTid env.now body) "failed" none (some m))
       ∧ (handleWebhook env db body).trace[5]? = some (.respond 500))
    ∧ (getPaymentByTransactionId (handleWebhook env db body).db.payments
         (webhookTid env.now body)).map PaymentRecord.status ≠ some "pending" := by
  have hrecTid : jsonBeq
      (mkPaymentRecord env (ensureTransactionId env.now (webhookAttrs body))).transaction_id
      (webhookTid env.now body) = true := jsonBeq_refl _
  refine ⟨?_, ?_, ?_⟩
  · intro uresp henv
    have hdbp : (handleWebhook env db body).db.payments
        = updatePaymentStatus
            (db.payments ++ [mkPaymentRecord env (ensureTransactionId env.now (webhookAttrs body))])
            (webhookTid env.now body) "success" (some (stringifyJson uresp)) none := by
      simp [handleWebhook, hping, hval, hdup, hins, henv, hupdS]
    have hresp : (handleWebhook env db body).resp.status = 200 := by
      simp [handleWebhook, hping, hval, hdup, hins, henv, hupdS, successResponse]
    rw [hdbp, getPayment_update_append _ _ _ _ _ _ hdup hrecTid]
    exact ⟨rfl, hresp⟩
  · intro m henv
    have hdbp : (handleWebhook env db body).db.payments
        = updatePaymentStatus
            (db.payments ++ [mkPaymentRecord env (ensureTransactionId env.now (webhookAttrs body))])
            (webhookTid env.now body) "failed" none (some m) := by
      simp [handleWebhook, uispFailurePath, hping, hval, hdup, hins, henv, hupdF]
    have hresp : (handleWebhook env db body).resp.status = 500 := by
      simp [handleWebhook, uispFailurePath, hping, hval, hdup, hins, henv, hupdF,
        uispFailResponse_status]
    have htr4 : (handleWebhook env db body).trace[4]?
        = some (.updateStatus (webhookTid env.now body) "failed" none (some m)) := by
      simp [handleWebhook, uispFailurePath, hping, hval, hdup, hins, henv, hupdF,
        uispFailResponse_status]
    have htr5 : (handleWebhook env db body).trace[5]? = some (.respond 500) := by
      simp [handleWebhook, uispFailurePath, hping, hval, hdup, hins, henv, hupdF,
        uispFailResponse_status]
    rw [hdbp, getPayment_update_append _ _ _ _ _ _ hdup hrecTid]
    exact ⟨rfl, hresp, htr4, htr5⟩
  · cases henv : env.uisp with
    | ok uresp =>
      have hdbp : (handleWebhook env db body).db.payments
          = updatePaymentStatus
              (db.payments ++ [mkPaymentRecord env (ensureTransactionId env.now (webhookAttrs body))])
              (webhookTid env.now body) "success" (some (stringifyJson uresp)) none := by
        simp [handleWebhook, hping, hval, hdup, hins, henv, hupdS]
      rw [hdbp, getPayment_update_append _ _ _ _ _ _ hdup hrecTid]
      simp
    | error m =>
      have hdbp : (handleWebhook env db body).db.payments
          = updatePaymentStatus
              (db.payments ++ [mkPaymentRecord env (ensureTransactionId env.now (webhookAttrs body))])
              (webhookTid env.now body) "failed" none (some m) := by
        simp [handleWebhook, uispFailurePath, hping, hval, hdup, hins, henv, hupdF]
      rw [hdbp, getPayment_update_append _ _ _ _ _ _ hdup hrecTid]
      simp

/-- Witness for C2 at `bodyBare` with a successful UISP post: the stored
status is "success" with the stringified response, under a 200. -/
theorem webhook_status_finalized_witness :
    (getPaymentByTransactionId (handleWebhook envOk dbEmpty bodyBare).db.payments
        (webhookTid envOk.now bodyBare)).map statusAndPayload
      = some ("success", some (stringifyJson (.obj [("id", .num 42)])))
    ∧ (handleWebhook envOk dbEmpty bodyBare).resp.status = 200 :=
  (webhook_status_finalized envOk dbEmpty bodyBare rfl rfl rfl rfl rfl rfl).1
    (.obj [("id", .num 42)]) rfl

/-- Counterexample for C2 as stated: with a UISP rejection whose message
is empty, the stored error message is empty rather than non-empty; and
when the success-status write rejects after a successful external post,
the stored status is "failed" even though the post succeeded. -/
theorem webhook_status_counterexample :
    (getPaymentByTransactionId (handleWebhook envUispEmptyErr dbEmpty bodyBare).db.payments
        (.str "T1")).map statusAndError = some ("failed", some "")
    ∧ (getPaymentByTransactionId (handleWebhook envUpdFail dbEmpty bodyBare).db.payments
        (.str "T1")).map statusAndError = some ("failed", some "db down")
    ∧ envUpdFail.uisp = .ok (.obj []) :=
  ⟨rfl, rfl, rfl⟩

/-- C7 (amended): when a payload has no truthy `transaction_id`, the
handler assigns the synthesized id `SPLYNX-<timestamp>-<client id>`, and
the synthesis is collision-free across pairs that differ in timestamp or
in the client id's string form: equal synthesized ids force equal
timestamps and equal stringified client ids.  (Distinct client-id values
with the same string form do collide; see counterexample.) -/
theorem synthesized_tid (t1 t2 : Nat) (c1 c2 : Json) (now : Nat) (pd : Json)
    (fs : List (String × Json)) (hpd : pd = .obj fs)
    (hno : pd.truthyField "transaction_id" = false)
    (heq : synthTid t1 c1 = synthTid t2 c2) :
    (t1 = t2 ∧ jsToString c1 = jsToString c2)
    ∧ (ensureTransactionId now pd).getField "transaction_id"
        = some (.str (synthTid now ((pd.getField "client_id").getD .null))) := by
  constructor
  · exact synthTid_inj t1 t2 c1 c2 heq
  · subst hpd
    unfold ensureTransactionId
    rw [if_pos (by simp [hno])]
    exact getField_setField _ _ _

/-- Witness for C7: a payload without a transaction id gets the
synthesized `SPLYNX-` id assigned, and equal synthesized inputs trivially
satisfy the injectivity conclusion. -/
theorem synthesized_tid_witness :
    ((5 : Nat) = 5 ∧ jsToString (.num 7) = jsToString (.num 7))
    ∧ (ensureTransactionId 5 (.obj [("client_id", .num 7)])).getField "transaction_id"
        = some (.str (synthTid 5
            (((Json.obj [("client_id", .num 7)]).getField "client_id").getD .null))) :=
  synthesized_tid 5 5 (.num 7) (.num 7) 5 (.obj [("client_id", .num 7)])
    [("client_id", .num 7)] rfl rfl rfl

/-- Counterexample for C7 as stated: the distinct client ids `1` (number)
and `"1"` (string) have the same string form, so two deliveries with
distinct (client id, timestamp) pairs synthesize the same transaction
id. -/
theorem synthesized_tid_counterexample :
    synthTid 5 (.num 1) = synthTid 5 (.str "1")
    ∧ Json.num 1 ≠ Json.str "1" := by
  constructor
  · unfold synthTid
    have h1 : jsToString (Json.num 1) = "1" := by
      show intToString 1 = "1"
      rw [intToString, if_neg (by norm_num)]
      show natToString 1 = "1"
      rw [natToString]
      rw [natDigits]
      rfl
    rw [h1]
    rfl
  · intro h
    cases h

/-- C8 (amended): every response of GET /api/payments carries a boolean
`success` flag — 200 with `success=true` and a `data` array on success,
500 with `success=false`, an `error` and a human-readable `message` when
the database read fails.  (The webhook route's duplicate, success and
UISP-failure responses carry no `success` field and its 400 carries no
`message`, so the system-wide envelope does not hold; see
counterexample.) -/
theorem api_payments_envelope (db : DB) (dbErr : Option String) (lp op : Option Int) :
    (dbErr = none →
       (handleGetPayments db dbErr lp op).status = 200
       ∧ (handleGetPayments db dbErr lp op).body.getField "success" = some (.bool true)
       ∧ ((handleGetPayments db dbErr lp op).body.getField "data").isSome = true)
    ∧ (∀ m, dbErr = some m →
       (handleGetPayments db dbErr lp op).status = 500
       ∧ (handleGetPayments db dbErr lp op).body.getField "success" = some (.bool false)
       ∧ (handleGetPayments db dbErr lp op).body.getField "error"
           = some (.str "Failed to fetch payments")
       ∧ (handleGetPayments db dbErr lp op).body.getField "message" = some (.str m)) := by
  constructor
  · intro h
    subst h
    refine ⟨rfl, ?_, ?_⟩ <;> simp [handleGetPayments, Json.getField, List.lookup]
  · intro m h
    subst h
    refine ⟨rfl, ?_, ?_, ?_⟩ <;> simp [handleGetPayments, Json.getField, List.lookup]

/-- Witness for C8 on both branches of GET /api/payments. -/
theorem api_payments_envelope_witness :
    ((handleGetPayments dbWithT1 none (some 2) none).status = 200
     ∧ (handleGetPayments dbWithT1 none (some 2) none).body.getField "success"
         = some (.bool true)
     ∧ ((handleGetPayments dbWithT1 none (some 2) none).body.getField "data").isSome = true)
    ∧ ((handleGetPayments dbWithT1 (some "boom") none none).status = 500
     ∧ (handleGetPayments dbWithT1 (some "boom") none none).body.getField "success"
         = some (.bool false)
     ∧ (handleGetPayments dbWithT1 (some "boom") none none).body.getField "error"
         = some (.str "Failed to fetch payments")
     ∧ (handleGetPayments dbWithT1 (some "boom") none none).body.getField "message"
         = some (.str "boom")) :=
  ⟨(api_payments_envelope dbWithT1 none (some 2) none).1 rfl,
   (api_payments_envelope dbWithT1 (some "boom") none none).2 "boom" rfl⟩

/-- Counterexample for C8 as stated: the webhook duplicate response (an
HTTP 200) has no `success` field at all, and the webhook 400 for missing
fields has no `message` field, so not every response follows the
`{success, data|error, message}` envelope. -/
theorem webhook_envelope_counterexample :
    (handleWebhook envOk dbWithT1 bodyBare).resp.body.getField "success" = none
    ∧ (handleWebhook envOk dbWithT1 bodyBare).resp.status = 200
    ∧ (handleWebhook envOk dbEmpty
        (.obj [("amount", .num 100), ("foo", .num 1), ("bar", .num 2)])).resp.body.getField
        "message" = none
    ∧ (handleWebhook envOk dbEmpty
        (.obj [("amount", .num 100), ("foo", .num 1), ("bar", .num 2)])).resp.status = 400 :=
  ⟨rfl, rfl, rfl, rfl⟩

/-- C9 (amended): for GET /api/payments with a positive parsed `limit`
and a nonnegative parsed `offset`, the response's `data` holds the page
`(payments.drop offset).take limit` — hence at most `limit` rows starting
at `offset` — and `pagination.count` equals the number of returned rows.
(A `limit` of 0 falls back to the default 50; see counterexample.) -/
theorem api_payments_pagination (db : DB) (n m : Int) (hn : 0 < n) (hm : 0 ≤ m) :
    (handleGetPayments db none (some n) (some m)).body.getField "data"
        = some (.arr ((getAllPayments db.payments n m).map paymentRecordToJson))
    ∧ (getAllPayments db.payments n m).length ≤ n.toNat
    ∧ getAllPayments db.payments n m = (db.payments.drop m.toNat).take n.toNat
    ∧ paginationCount (handleGetPayments db none (some n) (some m))
        = some (.num ((getAllPayments db.payments n m).length : Int)) := by
  have h0 : (n == 0) = false := by
    rw [beq_eq_false_iff_ne]
    exact hn.ne'
  have hlim : jsParseIntOr (some n) 50 = n := by simp [jsParseIntOr, h0]
  have hoff : jsParseIntOr (some m) 0 = m := by
    rcases eq_or_ne m 0 with h | h
    · simp [jsParseIntOr, h]
    · have h0' : (m == 0) = false := by
        rw [beq_eq_false_iff_ne]
        exact h
      simp [jsParseIntOr, h0']
  refine ⟨?_, ?_, rfl, ?_⟩
  · simp [handleGetPayments, hlim, hoff, Json.getField, List.lookup]
  · exact List.length_take_le _ _
  · simp [handleGetPayments, paginationCount, hlim, hoff, Json.getField, List.lookup]

/-- Witness for C9 with limit 1 and offset 0 against a one-row table. -/
theorem api_payments_pagination_witness :
    (handleGetPayments dbWithT1 none (some 1) (some 0)).body.getField "data"
        = some (.arr ((getAllPayments dbWithT1.payments 1 0).map paymentRecordToJson))
    ∧ (getAllPayments dbWithT1.payments 1 0).length ≤ (1 : Int).toNat
    ∧ getAllPayments dbWithT1.payments 1 0
        = (dbWithT1.payments.drop (0 : Int).toNat).take (1 : Int).toNat
    ∧ paginationCount (handleGetPayments dbWithT1 none (some 1) (some 0))
        = some (.num ((getAllPayments dbWithT1.payments 1 0).length : Int)) :=
  api_payments_pagination dbWithT1 1 0 (by norm_num) (by norm_num)

/-- Counterexample for C9 as stated: with `limit=0` the handler falls
back to the default of 50 and returns 1 row from a one-row table, more
than the requested limit of 0. -/
theorem api_payments_pagination_counterexample :
    responseDataLength (handleGetPayments dbWithT1 none (some 0) none) = some 1
    ∧ ¬ (1 : Nat) ≤ 0 :=
  ⟨rfl, by decide⟩

/-- C10 (amended): required-field presence is tested by JavaScript
truthiness, not key presence — a present-but-falsy `amount` is counted
missing and routes the request to the probe-or-400 branch with no UISP
post and no record written, and so is a present-but-falsy `client_id`
provided no truthy `customer_id` is present (a truthy `customer_id`
overwrites a falsy `client_id` via the aliasing shim, and the payload is
then processed normally; see counterexample); a falsy `customer_id` is
never copied into `client_id`. -/
theorem falsy_required_fields (env : Env) (db : DB) (body : Json)
    (hping : isPingLike (extractPaymentData body) = false) :
    (∀ v, (webhookAttrs body).getField "amount" = some v → v.truthy = false →
        "amount" ∈ missingFieldsOf (webhookAttrs body)
        ∧ ((handleWebhook env db body).resp = probeResponse
           ∨ (handleWebhook env db body).resp.status = 400)
        ∧ (handleWebhook env db body).trace.any isUispPostEv = false
        ∧ (handleWebhook env db body).db.payments = db.payments)
    ∧ (∀ v, (extractPaymentData body).getField "client_id" = some v → v.truthy = false →
        (extractPaymentData body).truthyField "customer_id" = false →
        "client_id" ∈ missingFieldsOf (webhookAttrs body)
        ∧ ((handleWebhook env db body).resp = probeResponse
           ∨ (handleWebhook env db body).resp.status = 400)
        ∧ (handleWebhook env db body).trace.any isUispPostEv = false
        ∧ (handleWebhook env db body).db.payments = db.payments)
    ∧ (∀ pd, pd.truthyField "customer_id" = false → aliasCustomerId pd = pd) := by
  have halias : ∀ pd : Json, pd.truthyField "customer_id" = false → aliasCustomerId pd = pd := by
    intro pd h
    unfold aliasCustomerId
    rw [if_neg]
    simp [h]
  have hbranch : (missingFieldsOf (webhookAttrs body)).isEmpty = false →
      ((handleWebhook env db body).resp = probeResponse
        ∨ (handleWebhook env db body).resp.status = 400)
      ∧ (handleWebhook env db body).trace.any isUispPostEv = false
      ∧ (handleWebhook env db body).db.payments = db.payments := by
    intro hne
    by_cases h3 : (webhookAttrs body).keyCount < 3
    · have hmain : handleWebhook env db body
          = ⟨probeResponse, ⟨db.payments, db.webhookLogs ++ [body]⟩,
             [.logWebhook, .respond 200]⟩ := by
        simp [handleWebhook, hping, hne, h3]
      rw [hmain]
      exact ⟨Or.inl rfl, rfl, rfl⟩
    · have hmain : handleWebhook env db body
          = ⟨missingFieldsResponse (missingFieldsOf (webhookAttrs body)),
             ⟨db.payments, db.webhookLogs ++ [body]⟩,
             [.logWebhook, .respond 400]⟩ := by
        simp [handleWebhook, hping, hne, h3]
      rw [hmain]
      exact ⟨Or.inr rfl, rfl, rfl⟩
  refine ⟨?_, ?_, halias⟩
  · intro v hget hfalsy
    have ht : (webhookAttrs body).truthyField "amount" = false := by
      simp [Json.truthyField, hget, hfalsy]
    have hmem : "amount" ∈ missingFieldsOf (webhookAttrs body) := by
      simp [missingFieldsOf, requiredFields, ht]
    have hne : (missingFieldsOf (webhookAttrs body)).isEmpty = false := by
      rw [List.isEmpty_eq_false]
      exact List.ne_nil_of_mem hmem
    exact ⟨hmem, hbranch hne⟩
  · intro v hget hfalsy hcust
    have hattrs : webhookAttrs body = extractPaymentData body := by
      unfold webhookAttrs
      exact halias _ hcust
    have ht : (webhookAttrs body).truthyField "client_id" = false := by
      rw [hattrs]
      simp [Json.truthyField, hget, hfalsy]
    have hmem : "client_id" ∈ missingFieldsOf (webhookAttrs body) := by
      simp [missingFieldsOf, requiredFields, ht]
    have hne : (missingFieldsOf (webhookAttrs body)).isEmpty = false := by
      rw [List.isEmpty_eq_false]
      exact List.ne_nil_of_mem hmem
    exact ⟨hmem, hbranch hne⟩

/-- Witness for C10 at `{client_id: 0, amount: "", foo: 1}` and the
falsy-customer payload `{customer_id: 0}`. -/
theorem falsy_required_fields_witness :
    ("amount" ∈ missingFieldsOf (webhookAttrs bodyFalsy)
      ∧ ((handleWebhook envOk dbEmpty bodyFalsy).resp = probeResponse
         ∨ (handleWebhook envOk dbEmpty bodyFalsy).resp.status = 400)
      ∧ (handleWebhook envOk dbEmpty bodyFalsy).trace.any isUispPostEv = false
      ∧ (handleWebhook envOk dbEmpty bodyFalsy).db.payments = dbEmpty.payments)
    ∧ ("client_id" ∈ missingFieldsOf (webhookAttrs bodyFalsy))
    ∧ aliasCustomerId (.obj [("customer_id", .num 0)]) = .obj [("customer_id", .num 0)] := by
  have h := falsy_required_fields envOk dbEmpty bodyFalsy rfl
  exact ⟨h.1 (.str "") rfl rfl,
    (h.2.1 (.num 0) rfl rfl rfl).1,
    h.2.2 (.obj [("customer_id", .num 0)]) rfl⟩

/-- Counterexample for C10 as stated: in
`{transaction_id: "T9", client_id: 0, customer_id: 7, amount: 100}` the
`client_id` is present but falsy, yet the aliasing shim overwrites it
with the truthy `customer_id`, so the request is fully processed (200
with a UISP post) instead of taking the probe-or-400 branch. -/
theorem falsy_client_id_processed_counterexample :
    (handleWebhook envOk dbEmpty
        (.obj [("transaction_id", .str "T9"), ("client_id", .num 0),
          ("customer_id", .num 7), ("amount", .num 100)])).resp.status = 200
    ∧ (handleWebhook envOk dbEmpty
        (.obj [("transaction_id", .str "T9"), ("client_id", .num 0),
          ("customer_id", .num 7), ("amount", .num 100)])).trace.any isUispPostEv = true
    ∧ (Json.num 0).truthy = false :=
  ⟨rfl, rfl, rfl⟩
